import Mathlib

/-
Verification of the configuration resolution and validation layer of the
analytics client, a shallow embedding of src/config.go.

Modelling conventions:
- time.Duration is a 64 bit signed count of nanoseconds; the code under
  study performs no arithmetic on user supplied durations, only comparisons
  against 0, so durations are modelled as Int.
- Go int fields are likewise modelled as Int.
- Interface valued and function valued fields (Transport, Logger, UID, Now,
  RetryAfter) are only ever compared against nil and replaced by a fixed
  default value; they are modelled as an optional abstract identifier, with
  none standing for the Go nil and distinct identifiers standing for the
  distinct default values the library installs.
-/

namespace Analytics

/-- Opaque handle standing for a Go interface or function value stored in a
configuration field; none models the Go nil. The configuration layer only
compares such values to nil and installs fixed defaults, so the identity of a
non nil value is all that matters. -/
abbrev Handle := Option Nat

/-- Handle standing for http.DefaultTransport, installed by makeConfig when
the Transport field is nil. -/
def defaultTransport : Handle := some 0

/-- Handle standing for the logger built by newDefaultLogger, installed by
makeConfig when the Logger field is nil. -/
def defaultLogger : Handle := some 1

/-- Handle standing for the uid function of config.go, installed by
makeConfig when the UID field is nil. -/
def uidFunction : Handle := some 2

/-- Handle standing for time.Now, installed by makeConfig when the Now field
is nil. -/
def timeNowFunction : Handle := some 3

/-- Handle standing for backo.DefaultBacko().Duration, installed by
makeConfig when the RetryAfter field is nil. -/
def defaultRetryAfter : Handle := some 4

/-- Shallow embedding of the Config struct of src/config.go. Field names and
order follow the source; Interval is a duration in nanoseconds. -/
@[ext]
structure Config where
  Endpoint : String
  Interval : Int
  Transport : Handle
  Logger : Handle
  BatchSize : Int
  Verbose : Bool
  UID : Handle
  Now : Handle
  RetryAfter : Handle
  deriving Repr, DecidableEq

/-- A Go interface value as stored in the Value field of a ConfigError: the
source stores either a time.Duration or an int there, and Go interface values
with different dynamic types are never equal. -/
inductive GoValue where
  | duration (d : Int)
  | int (n : Int)
  deriving Repr, DecidableEq

/-- Modelled from the spec: the ConfigError type is declared outside the
provided source file. The spec states that a ConfigurationError carries a
human readable reason, the offending field name and the offending value, and
the exact contents stored in each field are visible in Config.validate in
src/config.go. -/
structure ConfigError where
  Reason : String
  Field : String
  Value : GoValue
  deriving Repr, DecidableEq

/-- Shallow embedding of Config.validate from src/config.go lines 80 to 98;
none models the nil error returned on success. -/
def Config.validate (c : Config) : Option ConfigError :=
  if c.Interval < 0 then
    some { Reason := "negative time intervals are not supported",
           Field := "Interval",
           Value := GoValue.duration c.Interval }
  else if c.BatchSize < 0 then
    some { Reason := "negative batch sizes are not supported",
           Field := "BatchSize",
           Value := GoValue.int c.BatchSize }
  else
    none

/-- The DefaultEndpoint constant of src/config.go. -/
def DefaultEndpoint : String := "https://api.segment.io"

/-- The DefaultInterval constant of src/config.go: 5 * time.Second, that is
5 seconds expressed in nanoseconds. -/
def DefaultInterval : Int := 5 * 1000000000

/-- The DefaultBatchSize constant of src/config.go. -/
def DefaultBatchSize : Int := 250

/-- Shallow embedding of makeConfig from src/config.go lines 102 to 136: the
source reassigns fields of its value argument one by one; each conditional
reads only fields not yet reassigned, mirrored here by a chain of record
updates. -/
def makeConfig (c : Config) : Config :=
  let c := if c.Endpoint.length = 0 then { c with Endpoint := DefaultEndpoint } else c
  let c := if c.Interval = 0 then { c with Interval := DefaultInterval } else c
  let c := if c.Transport = none then { c with Transport := defaultTransport } else c
  let c := if c.Logger = none then { c with Logger := defaultLogger } else c
  let c := if c.BatchSize = 0 then { c with BatchSize := DefaultBatchSize } else c
  let c := if c.UID = none then { c with UID := uidFunction } else c
  let c := if c.Now = none then { c with Now := timeNowFunction } else c
  let c := if c.RetryAfter = none then { c with RetryAfter := defaultRetryAfter } else c
  c

/-- The all zero Config record: every field holds the zero value of its Go
type. -/
def zeroConfig : Config :=
  { Endpoint := "", Interval := 0, Transport := none, Logger := none,
    BatchSize := 0, Verbose := false, UID := none, Now := none,
    RetryAfter := none }

/-- A record with Interval set to -1 nanosecond and all other fields zero. -/
def negIntervalConfig : Config := { zeroConfig with Interval := -1 }

/-- A record with BatchSize set to -5 and all other fields zero. -/
def negBatchConfig : Config := { zeroConfig with BatchSize := -5 }

/-- A record with Interval set to -1 and BatchSize set to -5. -/
def bothNegConfig : Config := { zeroConfig with Interval := -1, BatchSize := -5 }

/-- A record with every field set to a value other than the zero value of its
type. -/
def fullConfig : Config :=
  { Endpoint := "https://custom.example.com", Interval := 1,
    Transport := some 9, Logger := some 8, BatchSize := 10, Verbose := true,
    UID := some 7, Now := some 6, RetryAfter := some 5 }

/-- In the source the Endpoint zero test is written len(c.Endpoint) == 0;
this bridges it to equality with the empty string. -/
theorem string_length_zero_iff (s : String) : s.length = 0 ↔ s = "" := by
  constructor
  · intro h
    apply String.ext
    have hd : s.data.length = 0 := h
    simpa using List.length_eq_zero.mp hd
  · intro h
    subst h
    rfl

/-- The sequential record updates of makeConfig are equivalent to a single
record built field by field, because each conditional in the source reads
only the field it replaces. -/
theorem makeConfig_eq (c : Config) :
    makeConfig c =
      { Endpoint := if c.Endpoint.length = 0 then DefaultEndpoint else c.Endpoint,
        Interval := if c.Interval = 0 then DefaultInterval else c.Interval,
        Transport := if c.Transport = none then defaultTransport else c.Transport,
        Logger := if c.Logger = none then defaultLogger else c.Logger,
        BatchSize := if c.BatchSize = 0 then DefaultBatchSize else c.BatchSize,
        Verbose := c.Verbose,
        UID := if c.UID = none then uidFunction else c.UID,
        Now := if c.Now = none then timeNowFunction else c.Now,
        RetryAfter := if c.RetryAfter = none then defaultRetryAfter else c.RetryAfter } := by
  obtain ⟨ep, it, tr, lg, bs, vb, u, nw, ra⟩ := c
  by_cases h1 : ep.length = 0 <;>
    by_cases h2 : it = 0 <;>
      by_cases h3 : tr = none <;>
        by_cases h4 : lg = none <;>
          by_cases h5 : bs = 0 <;>
            by_cases h6 : u = none <;>
              by_cases h7 : nw = none <;>
                by_cases h8 : ra = none <;>
                  simp [makeConfig, h1, h2, h3, h4, h5, h6, h7, h8]

/-- Claim C1: Config.validate returns no error exactly when the Interval and
BatchSize of the record are both nonnegative; a record with a negative field
fails with a single ConfigError. -/
theorem validate_none_iff (c : Config) :
    c.validate = none ↔ 0 ≤ c.Interval ∧ 0 ≤ c.BatchSize := by
  unfold Config.validate
  split_ifs with h1 h2 <;> simp <;> omega

/-- Claim C2 counterexample: resolving the record whose Interval is -1 yields
a record whose Interval is still -1, so a resolved record does not always
satisfy the nonnegativity invariants. -/
theorem makeConfig_not_always_valid_cex :
    (makeConfig negIntervalConfig).Interval < 0 := by decide

/-- Claim C2 (amended): for every record whose Interval and BatchSize are
both nonnegative, the record returned by makeConfig satisfies both
invariants; the unrestricted claim fails because makeConfig preserves
negative values unchanged. -/
theorem makeConfig_preserves_validity (c : Config)
    (hi : 0 ≤ c.Interval) (hb : 0 ≤ c.BatchSize) :
    0 ≤ (makeConfig c).Interval ∧ 0 ≤ (makeConfig c).BatchSize := by
  rw [makeConfig_eq]
  constructor
  · show 0 ≤ if c.Interval = 0 then DefaultInterval else c.Interval
    split_ifs
    · decide
    · exact hi
  · show 0 ≤ if c.BatchSize = 0 then DefaultBatchSize else c.BatchSize
    split_ifs
    · decide
    · exact hb

theorem makeConfig_preserves_validity_witness :
    0 ≤ (makeConfig zeroConfig).Interval ∧ 0 ≤ (makeConfig zeroConfig).BatchSize :=
  makeConfig_preserves_validity zeroConfig (by decide) (by decide)

/-- Claim C3 counterexample: on the record with Interval equal to -1 the
error returned by Config.validate carries the field name Interval, the name
the source gives the flush interval field, and not the name flushInterval the
claim states. -/
theorem validate_negative_interval_field_cex :
    negIntervalConfig.validate =
      some { Reason := "negative time intervals are not supported",
             Field := "Interval", Value := GoValue.duration (-1) } ∧
    "Interval" ≠ "flushInterval" := by
  constructor
  · rfl
  · decide

/-- Claim C3 (amended): for every record with Interval < 0, Config.validate
fails with reason "negative time intervals are not supported", field name
"Interval" (the name the source declares for the flush interval field) and
value equal to the input interval. -/
theorem validate_negative_interval (c : Config) (h : c.Interval < 0) :
    c.validate =
      some { Reason := "negative time intervals are not supported",
             Field := "Interval", Value := GoValue.duration c.Interval } := by
  unfold Config.validate
  rw [if_pos h]

theorem validate_negative_interval_witness :
    negIntervalConfig.validate =
      some { Reason := "negative time intervals are not supported",
             Field := "Interval", Value := GoValue.duration (-1) } :=
  validate_negative_interval negIntervalConfig (by decide)

/-- Claim C4 counterexample: on the record with BatchSize equal to -5 the
error returned by Config.validate carries the field name BatchSize, not the
name batchSize the claim states. -/
theorem validate_negative_batch_field_cex :
    negBatchConfig.validate =
      some { Reason := "negative batch sizes are not supported",
             Field := "BatchSize", Value := GoValue.int (-5) } ∧
    "BatchSize" ≠ "batchSize" := by
  constructor
  · rfl
  · decide

/-- Claim C4 (amended): a record with BatchSize < 0 and Interval nonnegative
fails validation with field name "BatchSize" (the name the source declares
for the batch size field); when both fields are negative the single reported
error is the Interval one, because the interval check runs first. -/
theorem validate_negative_batch (c : Config) :
    (c.BatchSize < 0 → 0 ≤ c.Interval →
      c.validate =
        some { Reason := "negative batch sizes are not supported",
               Field := "BatchSize", Value := GoValue.int c.BatchSize }) ∧
    (c.Interval < 0 → c.BatchSize < 0 →
      c.validate =
        some { Reason := "negative time intervals are not supported",
               Field := "Interval", Value := GoValue.duration c.Interval }) := by
  unfold Config.validate
  constructor
  · intro hb hi
    rw [if_neg (by omega), if_pos hb]
  · intro hi hb
    rw [if_pos hi]

theorem validate_negative_batch_witness :
    negBatchConfig.validate =
      some { Reason := "negative batch sizes are not supported",
             Field := "BatchSize", Value := GoValue.int (-5) } ∧
    bothNegConfig.validate =
      some { Reason := "negative time intervals are not supported",
             Field := "Interval", Value := GoValue.duration (-1) } :=
  ⟨(validate_negative_batch negBatchConfig).1 (by decide) (by decide),
   (validate_negative_batch bothNegConfig).2 (by decide) (by decide)⟩

/-- Claim C5: makeConfig is a total function (it never fails) and never
coerces invalid values: a negative Interval and a negative BatchSize survive
resolution unchanged, neither clamped to zero nor replaced by a default. -/
theorem makeConfig_preserves_negatives (c : Config) :
    (c.Interval < 0 → (makeConfig c).Interval = c.Interval) ∧
    (c.BatchSize < 0 → (makeConfig c).BatchSize = c.BatchSize) := by
  rw [makeConfig_eq]
  constructor
  · intro h
    show (if c.Interval = 0 then DefaultInterval else c.Interval) = c.Interval
    rw [if_neg (by omega)]
  · intro h
    show (if c.BatchSize = 0 then DefaultBatchSize else c.BatchSize) = c.BatchSize
    rw [if_neg (by omega)]

theorem makeConfig_preserves_negatives_witness :
    (makeConfig bothNegConfig).Interval = -1 ∧
    (makeConfig bothNegConfig).BatchSize = -5 :=
  ⟨(makeConfig_preserves_negatives bothNegConfig).1 (by decide),
   (makeConfig_preserves_negatives bothNegConfig).2 (by decide)⟩

/-- Claim C6: resolving the all zero record yields exactly the documented
defaults: endpoint "https://api.segment.io", an Interval of 5 seconds,
written as 5 * 1000000000 nanoseconds, BatchSize 250, and every remaining
field its own default; the five default handles are pairwise distinct, so no
field receives the default of another field. -/
theorem makeConfig_zero_defaults :
    makeConfig zeroConfig =
      { Endpoint := "https://api.segment.io", Interval := 5 * 1000000000,
        Transport := defaultTransport, Logger := defaultLogger,
        BatchSize := 250, Verbose := false, UID := uidFunction,
        Now := timeNowFunction, RetryAfter := defaultRetryAfter } ∧
    [defaultTransport, defaultLogger, uidFunction, timeNowFunction,
      defaultRetryAfter].Nodup := by
  constructor
  · rfl
  · decide

/-- Claim C7: every field explicitly set to a value other than the zero value
of its type is returned unchanged by makeConfig. -/
theorem makeConfig_keeps_explicit_fields (c : Config) :
    (c.Endpoint ≠ "" → (makeConfig c).Endpoint = c.Endpoint) ∧
    (c.Interval ≠ 0 → (makeConfig c).Interval = c.Interval) ∧
    (c.Transport ≠ none → (makeConfig c).Transport = c.Transport) ∧
    (c.Logger ≠ none → (makeConfig c).Logger = c.Logger) ∧
    (c.BatchSize ≠ 0 → (makeConfig c).BatchSize = c.BatchSize) ∧
    (c.Verbose ≠ false → (makeConfig c).Verbose = c.Verbose) ∧
    (c.UID ≠ none → (makeConfig c).UID = c.UID) ∧
    (c.Now ≠ none → (makeConfig c).Now = c.Now) ∧
    (c.RetryAfter ≠ none → (makeConfig c).RetryAfter = c.RetryAfter) := by
  rw [makeConfig_eq]
  refine ⟨?_, ?_, ?_, ?_, ?_, ?_, ?_, ?_, ?_⟩ <;> intro h
  · show (if c.Endpoint.length = 0 then DefaultEndpoint else c.Endpoint) = c.Endpoint
    exact if_neg (fun hl => h ((string_length_zero_iff c.Endpoint).mp hl))
  · exact if_neg h
  · exact if_neg h
  · exact if_neg h
  · exact if_neg h
  · rfl
  · exact if_neg h
  · exact if_neg h
  · exact if_neg h

theorem makeConfig_keeps_explicit_fields_witness :
    (makeConfig fullConfig).Endpoint = "https://custom.example.com" ∧
    (makeConfig fullConfig).Interval = 1 ∧
    (makeConfig fullConfig).Transport = some 9 ∧
    (makeConfig fullConfig).Logger = some 8 ∧
    (makeConfig fullConfig).BatchSize = 10 ∧
    (makeConfig fullConfig).Verbose = true ∧
    (makeConfig fullConfig).UID = some 7 ∧
    (makeConfig fullConfig).Now = some 6 ∧
    (makeConfig fullConfig).RetryAfter = some 5 := by
  obtain ⟨h1, h2, h3, h4, h5, h6, h7, h8, h9⟩ :=
    makeConfig_keeps_explicit_fields fullConfig
  exact ⟨h1 (by decide), h2 (by decide), h3 (by decide), h4 (by decide),
    h5 (by decide), h6 (by decide), h7 (by decide), h8 (by decide),
    h9 (by decide)⟩

/-- After resolution the Endpoint is never the empty string. -/
theorem makeConfig_Endpoint_length_ne (c : Config) :
    ¬ (makeConfig c).Endpoint.length = 0 := by
  rw [makeConfig_eq]
  show ¬ (if c.Endpoint.length = 0 then DefaultEndpoint else c.Endpoint).length = 0
  split_ifs with h
  · decide
  · exact h

/-- After resolution the Interval is never zero. -/
theorem makeConfig_Interval_ne (c : Config) : ¬ (makeConfig c).Interval = 0 := by
  rw [makeConfig_eq]
  show ¬ (if c.Interval = 0 then DefaultInterval else c.Interval) = 0
  split_ifs with h
  · decide
  · exact h

/-- After resolution the Transport is never nil. -/
theorem makeConfig_Transport_ne (c : Config) : ¬ (makeConfig c).Transport = none := by
  rw [makeConfig_eq]
  show ¬ (if c.Transport = none then defaultTransport else c.Transport) = none
  split_ifs with h
  · decide
  · exact h

/-- After resolution the Logger is never nil. -/
theorem makeConfig_Logger_ne (c : Config) : ¬ (makeConfig c).Logger = none := by
  rw [makeConfig_eq]
  show ¬ (if c.Logger = none then defaultLogger else c.Logger) = none
  split_ifs with h
  · decide
  · exact h

/-- After resolution the BatchSize is never zero. -/
theorem makeConfig_BatchSize_ne (c : Config) : ¬ (makeConfig c).BatchSize = 0 := by
  rw [makeConfig_eq]
  show ¬ (if c.BatchSize = 0 then DefaultBatchSize else c.BatchSize) = 0
  split_ifs with h
  · decide
  · exact h

/-- After resolution the UID function is never nil. -/
theorem makeConfig_UID_ne (c : Config) : ¬ (makeConfig c).UID = none := by
  rw [makeConfig_eq]
  show ¬ (if c.UID = none then uidFunction else c.UID) = none
  split_ifs with h
  · decide
  · exact h

/-- After resolution the Now function is never nil. -/
theorem makeConfig_Now_ne (c : Config) : ¬ (makeConfig c).Now = none := by
  rw [makeConfig_eq]
  show ¬ (if c.Now = none then timeNowFunction else c.Now) = none
  split_ifs with h
  · decide
  · exact h

/-- After resolution the RetryAfter function is never nil. -/
theorem makeConfig_RetryAfter_ne (c : Config) : ¬ (makeConfig c).RetryAfter = none := by
  rw [makeConfig_eq]
  show ¬ (if c.RetryAfter = none then defaultRetryAfter else c.RetryAfter) = none
  split_ifs with h
  · decide
  · exact h

/-- Claim C8: makeConfig is idempotent; a resolved record is a fixed point,
because after resolution no field still holds the zero value of its type. -/
theorem makeConfig_idempotent (c : Config) :
    makeConfig (makeConfig c) = makeConfig c := by
  rw [makeConfig_eq (makeConfig c),
    if_neg (makeConfig_Endpoint_length_ne c),
    if_neg (makeConfig_Interval_ne c),
    if_neg (makeConfig_Transport_ne c),
    if_neg (makeConfig_Logger_ne c),
    if_neg (makeConfig_BatchSize_ne c),
    if_neg (makeConfig_UID_ne c),
    if_neg (makeConfig_Now_ne c),
    if_neg (makeConfig_RetryAfter_ne c)]

/-- Claim C9: makeConfig never changes the Verbose field; its zero value
false is not treated as unset, so no default is ever substituted for it. -/
theorem makeConfig_verbose_unchanged (c : Config) :
    (makeConfig c).Verbose = c.Verbose := by
  rw [makeConfig_eq]

/-- Claim C10: the result of Config.validate depends only on the Interval and
BatchSize fields; two records agreeing on those two fields validate to
identical results. -/
theorem validate_depends_only_on_interval_and_batch (a b : Config)
    (hi : a.Interval = b.Interval) (hb : a.BatchSize = b.BatchSize) :
    a.validate = b.validate := by
  unfold Config.validate
  rw [hi, hb]

theorem validate_depends_only_on_interval_and_batch_witness :
    ({ fullConfig with Interval := 3, BatchSize := 4 } : Config).validate =
      ({ zeroConfig with Interval := 3, BatchSize := 4 } : Config).validate :=
  validate_depends_only_on_interval_and_batch
    { fullConfig with Interval := 3, BatchSize := 4 }
    { zeroConfig with Interval := 3, BatchSize := 4 } (by decide) (by decide)

end Analytics
